import Mathlib

/-!
Verification of the openlit-chatbot streaming artifact pipeline.

The embedding covers:
- the image document handler (src/artifacts/image/server.ts), translated
  directly from the source: each handler callback is a pure function from its
  inputs to the ordered list of deltas it writes to the data stream and the
  document content it returns;
- the language-model provider configuration (providers source file): the two
  customProvider configurations and the isTestEnvironment selection between
  them;
- the Resumable Stream Context, whose implementation lives outside the given
  source tree and is therefore modelled from the specification text.
-/

/-- One streamed delta event: a discriminated type tag and a content payload,
as written by dataStream.writeData in the source. -/
structure Delta where
  type : String
  content : String
deriving DecidableEq

/-- The observable outcome of running one document-handler callback: the
deltas it writes to the data stream, in write order, and the document content
it returns. -/
structure HandlerRun where
  deltas : List Delta
  content : String
deriving DecidableEq

/-- The error message the image handler returns, from
src/artifacts/image/server.ts: image generation is unsupported with the
configured Anthropic provider. -/
def imageErrorMsg : String := "Image generation is not supported with Anthropic models."

/-- onCreateDocument of the image handler, translated from
src/artifacts/image/server.ts lines 5 to 13: it writes one delta of type
image-delta with empty content to the data stream and returns the error
message as the document content. The title input is received but unused. -/
def imageOnCreateDocument (title : String) : HandlerRun :=
  { deltas := [{ type := "image-delta", content := "" }]
    content := imageErrorMsg }

/-- onUpdateDocument of the image handler, translated from
src/artifacts/image/server.ts lines 14 to 22: it writes one delta of type
image-delta with empty content and returns the error message. The existing
document content and the description input are received but unused. -/
def imageOnUpdateDocument (documentContent description : String) : HandlerRun :=
  { deltas := [{ type := "image-delta", content := "" }]
    content := imageErrorMsg }

/-- A document handler as registered through createDocumentHandler: a single
kind tag plus the two callbacks. -/
structure DocumentHandler where
  kind : String
  onCreateDocument : String → HandlerRun
  onUpdateDocument : String → String → HandlerRun

/-- imageDocumentHandler from src/artifacts/image/server.ts: registered with
the single kind tag image and the two callbacks above. -/
def imageDocumentHandler : DocumentHandler :=
  { kind := "image"
    onCreateDocument := imageOnCreateDocument
    onUpdateDocument := imageOnUpdateDocument }

/-- Modelled from the spec: the generic document pipeline around a handler
(createDocumentHandler in lib/artifacts/server and the document tools, code
of this repository absent from src/) appends a terminal finish delta after
the handler callback completes, so an unsupported request yields an
error-content delta plus a finish rather than an unhandled failure. -/
def finishDelta : Delta := { type := "finish", content := "" }

/-- Running a creation request through a handler and the surrounding
pipeline: the handler deltas followed by the terminal finish delta, with the
handler return value as the materialized document content. -/
def runCreateDocument (h : DocumentHandler) (title : String) : HandlerRun :=
  let r := h.onCreateDocument title
  { deltas := r.deltas ++ [finishDelta], content := r.content }

/-- Running an update request through a handler and the surrounding pipeline,
in the same shape as creation. -/
def runUpdateDocument (h : DocumentHandler) (documentContent description : String) :
    HandlerRun :=
  let r := h.onUpdateDocument documentContent description
  { deltas := r.deltas ++ [finishDelta], content := r.content }

/-- Modelled from the spec: the Resumable Stream Context persists every delta
of one production run to a durable append-only log keyed by the stream id, in
arrival order; the implementation is code of this repository absent from
src/. The state here is that persisted log. -/
structure StreamContext where
  log : List Delta
deriving DecidableEq

/-- A freshly registered stream context: empty persisted log. -/
def emptyContext : StreamContext := { log := [] }

/-- The producer pushes one delta: it is appended to the persisted log. -/
def StreamContext.push (ctx : StreamContext) (d : Delta) : StreamContext :=
  { log := ctx.log ++ [d] }

/-- The producer pushes a whole delta sequence, one delta at a time, in
order. -/
def StreamContext.pushAll (ctx : StreamContext) (ds : List Delta) : StreamContext :=
  ds.foldl StreamContext.push ctx

/-- Modelled from the spec: replaying from a resume cursor returns the
persisted deltas strictly after that point, in log order. -/
def StreamContext.replay (ctx : StreamContext) (c : Nat) : List Delta :=
  ctx.log.drop c

/-- A live subscriber: the resume cursor it attached with and the delta
sequence it has observed so far. -/
structure Subscriber where
  cursor : Nat
  received : List Delta
deriving DecidableEq

/-- Modelled from the spec: a subscriber attaching with cursor c first
receives the replay of the persisted deltas strictly after c. -/
def StreamContext.attach (ctx : StreamContext) (c : Nat) : Subscriber :=
  { cursor := c, received := ctx.replay c }

/-- Modelled from the spec: after attachment, each delta the producer pushes
is persisted to the log and broadcast to the attached subscriber, in push
order. -/
def runLive : StreamContext → Subscriber → List Delta → StreamContext × Subscriber
  | ctx, s, [] => (ctx, s)
  | ctx, s, d :: ds =>
      runLive (ctx.push d) { s with received := s.received ++ [d] } ds

/-- The states of the Resumable Stream Context, modelled from the spec state
machine. -/
inductive StreamState where
  | PENDING
  | STREAMING
  | FINISHED
  | ERRORED
deriving DecidableEq

/-- The events driving the stream state machine. -/
inductive StreamEvent where
  | deltaEmitted
  | finishPersisted
  | producerFailed
deriving DecidableEq

/-- Modelled from the spec: PENDING moves to STREAMING on the first delta,
STREAMING stays on further deltas, STREAMING moves to FINISHED when the
terminal delta is persisted, and a producer failure moves PENDING or
STREAMING to ERRORED. No transition leaves FINISHED or ERRORED. -/
inductive streamStep : StreamState → StreamEvent → StreamState → Prop where
  | first_delta : streamStep StreamState.PENDING StreamEvent.deltaEmitted StreamState.STREAMING
  | next_delta : streamStep StreamState.STREAMING StreamEvent.deltaEmitted StreamState.STREAMING
  | finish : streamStep StreamState.STREAMING StreamEvent.finishPersisted StreamState.FINISHED
  | fail_pending : streamStep StreamState.PENDING StreamEvent.producerFailed StreamState.ERRORED
  | fail_streaming : streamStep StreamState.STREAMING StreamEvent.producerFailed StreamState.ERRORED

/-- Zero or more steps of the stream state machine. -/
inductive streamSteps : StreamState → StreamState → Prop where
  | refl (s : StreamState) : streamSteps s s
  | tail {s t u : StreamState} (e : StreamEvent) :
      streamSteps s t → streamStep t e u → streamSteps s u

/-- A language model as configured in the providers source file: either one
of the four mock models of the test environment, a plain Anthropic model
selected by model id, or a model wrapped with the reasoning-extraction
middleware for a tag name. -/
inductive LanguageModel where
  | chatModel
  | reasoningModel
  | titleModel
  | artifactModel
  | anthropic (modelId : String)
  | wrapAnthropic (modelId tagName : String)
deriving DecidableEq

/-- A customProvider configuration: the named language-model selectors it
exposes, in declaration order. -/
structure Provider where
  languageModels : List (String × LanguageModel)
deriving DecidableEq

/-- The test-environment customProvider from the providers source file: the
four mock models under the four selectors. -/
def testEnvironmentProvider : Provider :=
  { languageModels :=
      [("chat-model", LanguageModel.chatModel),
       ("chat-model-reasoning", LanguageModel.reasoningModel),
       ("title-model", LanguageModel.titleModel),
       ("artifact-model", LanguageModel.artifactModel)] }

/-- The production customProvider from the providers source file: Anthropic
claude models under the same four selectors, the reasoning selector wrapped
with extractReasoningMiddleware using tag think. -/
def productionProvider : Provider :=
  { languageModels :=
      [("chat-model", LanguageModel.anthropic ("claude-3-haiku-20240307")),
       ("chat-model-reasoning",
         LanguageModel.wrapAnthropic ("claude-3-sonnet-20240229") ("think")),
       ("title-model", LanguageModel.anthropic ("claude-3-haiku-20240307")),
       ("artifact-model", LanguageModel.anthropic ("claude-3-haiku-20240307"))] }

/-- myProvider from the providers source file: the test configuration when
isTestEnvironment holds, the production configuration otherwise. -/
def myProvider (isTestEnvironment : Bool) : Provider :=
  if isTestEnvironment then testEnvironmentProvider else productionProvider

/-- Concrete deltas used to exercise the resumption theorem at a concrete
input. -/
def sampleLog : List Delta :=
  [{ type := "id", content := "D1" },
   { type := "title", content := "Notes" },
   { type := "text-delta", content := "Hello" }]

/-- Concrete live deltas used to exercise the resumption theorem at a
concrete input. -/
def sampleLive : List Delta :=
  [{ type := "text-delta", content := " world" }, finishDelta]

/- ------------------------------------------------------------------ -/
/- Helper lemmas shared by the theorems below.                        -/
/- ------------------------------------------------------------------ -/

theorem pushAll_log (ctx : StreamContext) (ds : List Delta) :
    (ctx.pushAll ds).log = ctx.log ++ ds := by
  induction ds generalizing ctx with
  | nil => simp [StreamContext.pushAll]
  | cons d ds ih =>
      have h : ctx.pushAll (d :: ds) = (ctx.push d).pushAll ds := rfl
      rw [h, ih, StreamContext.push, List.append_assoc]
      rfl

theorem runLive_received (ctx : StreamContext) (s : Subscriber) (L : List Delta) :
    (runLive ctx s L).2.received = s.received ++ L := by
  induction L generalizing ctx s with
  | nil => simp [runLive]
  | cons d ds ih => simp [runLive, ih]

/- ------------------------------------------------------------------ -/
/- Claim theorems.                                                    -/
/- ------------------------------------------------------------------ -/

/-- C1: for every image creation or image update request against the
configured Anthropic provider, the emitted delta sequence is exactly one
content delta of the error path followed by the terminal finish delta: two
deltas total, the first not a finish, the second the finish delta, and the
computation is total, never an unhandled failure. -/
theorem unsupported_image_request_emits_one_error_delta_then_finish
    (title documentContent description : String) :
    (runCreateDocument imageDocumentHandler title).deltas
        = [{ type := "image-delta", content := "" }, finishDelta] ∧
    (runUpdateDocument imageDocumentHandler documentContent description).deltas
        = [{ type := "image-delta", content := "" }, finishDelta] ∧
    ((runCreateDocument imageDocumentHandler title).deltas.filter
        (fun d => d.type != "finish")).length = 1 ∧
    ((runUpdateDocument imageDocumentHandler documentContent description).deltas.filter
        (fun d => d.type != "finish")).length = 1 ∧
    finishDelta.type = "finish" :=
  ⟨rfl, rfl, rfl, rfl, rfl⟩

/-- C2: every createDocument call of the image handler culminates in full
document content equal to the synthesized explanatory error text about the
Anthropic limitation, not real generated content and not a raised error. -/
theorem create_image_document_culminates_in_explanatory_error (title : String) :
    (runCreateDocument imageDocumentHandler title).content = imageErrorMsg ∧
    imageErrorMsg = "Image generation is not supported with Anthropic models." :=
  ⟨rfl, rfl⟩

/-- C3: the image handler streams updates exactly the way it streams
creation: for all inputs the update run and the creation run are equal as
whole handler runs, both at the raw callback level and through the
surrounding pipeline, so the delta sequence, the terminal behaviour and the
resulting content coincide structurally. -/
theorem image_update_streams_like_create (title documentContent description : String) :
    imageDocumentHandler.onUpdateDocument documentContent description
        = imageDocumentHandler.onCreateDocument title ∧
    runUpdateDocument imageDocumentHandler documentContent description
        = runCreateDocument imageDocumentHandler title :=
  ⟨rfl, rfl⟩

/-- C4: the image handler is registered with the single kind tag image, and
every delta either of its callbacks writes has type image-delta, the image
kind vocabulary. -/
theorem image_handler_single_kind_and_vocabulary
    (title documentContent description : String) :
    imageDocumentHandler.kind = "image" ∧
    ((imageDocumentHandler.onCreateDocument title).deltas.all
        (fun d => d.type == "image-delta")) = true ∧
    ((imageDocumentHandler.onUpdateDocument documentContent description).deltas.all
        (fun d => d.type == "image-delta")) = true :=
  ⟨rfl, rfl, rfl⟩

/-- C5: for every delta sequence D produced by one production run, the
persisted log after pushing D from a fresh context is D itself, and replaying
that log from cursor 0 reproduces D exactly: same payloads, same total
order, for any subscriber reading the log. -/
theorem replay_from_zero_reproduces_run (D : List Delta) :
    (emptyContext.pushAll D).log = D ∧
    (emptyContext.pushAll D).replay 0 = D := by
  have h : (emptyContext.pushAll D).log = D := by
    rw [pushAll_log]
    rfl
  exact ⟨h, by rw [StreamContext.replay, h]; rfl⟩

/-- C6: for every persisted sequence D, every resume cursor c with
c less than or equal to the length of D, and every sequence L of deltas
pushed live after attachment, the subscriber observes exactly the suffix of
D from c followed by L in push order, and that observation equals the suffix
from c of the final total log, so the splice point has no duplicate and no
gap. -/
theorem resume_from_cursor_splices_without_gap_or_duplicate
    (D L : List Delta) (c : Nat) (h : c ≤ D.length) :
    (runLive (emptyContext.pushAll D) ((emptyContext.pushAll D).attach c) L).2.received
        = D.drop c ++ L ∧
    (runLive (emptyContext.pushAll D) ((emptyContext.pushAll D).attach c) L).2.received
        = ((emptyContext.pushAll D).pushAll L).log.drop c := by
  have hlog : (emptyContext.pushAll D).log = D := by
    rw [pushAll_log]; rfl
  have hattach : ((emptyContext.pushAll D).attach c).received = D.drop c := by
    rw [StreamContext.attach, StreamContext.replay, hlog]
  have hrec := runLive_received (emptyContext.pushAll D)
      ((emptyContext.pushAll D).attach c) L
  rw [hattach] at hrec
  refine ⟨hrec, ?_⟩
  rw [hrec, pushAll_log, hlog, List.drop_append_of_le_length h]

/-- Witness for C6 at a concrete input: a three-delta persisted log, resume
cursor 2, and two live deltas. -/
theorem resume_splice_witness :
    2 ≤ sampleLog.length ∧
    ((runLive (emptyContext.pushAll sampleLog)
          ((emptyContext.pushAll sampleLog).attach 2) sampleLive).2.received
        = sampleLog.drop 2 ++ sampleLive ∧
     (runLive (emptyContext.pushAll sampleLog)
          ((emptyContext.pushAll sampleLog).attach 2) sampleLive).2.received
        = ((emptyContext.pushAll sampleLog).pushAll sampleLive).log.drop 2) :=
  ⟨by decide,
   resume_from_cursor_splices_without_gap_or_duplicate sampleLog sampleLive 2 (by decide)⟩

/-- C7: the stream state machine never leaves a terminal state: from
FINISHED or ERRORED, any number of steps of the transition relation leads
back to the same state, because no transition leaves either terminal
state. -/
theorem terminal_stream_states_are_absorbing (s u : StreamState)
    (h : streamSteps s u) :
    s = StreamState.FINISHED ∨ s = StreamState.ERRORED → u = s := by
  induction h with
  | refl => intro _; rfl
  | tail e hprev hstep ih =>
      intro hterm
      have ht := ih hterm
      subst ht
      rcases hterm with h1 | h1 <;> subst h1 <;> cases hstep

/-- Witness for C7 at concrete states: FINISHED reaches only FINISHED and
ERRORED reaches only ERRORED under the reflexive closure. -/
theorem terminal_stream_states_are_absorbing_witness :
    StreamState.FINISHED = StreamState.FINISHED ∧
    StreamState.ERRORED = StreamState.ERRORED :=
  ⟨terminal_stream_states_are_absorbing StreamState.FINISHED StreamState.FINISHED
      (streamSteps.refl StreamState.FINISHED) (Or.inl rfl),
   terminal_stream_states_are_absorbing StreamState.ERRORED StreamState.ERRORED
      (streamSteps.refl StreamState.ERRORED) (Or.inr rfl)⟩

/-- C8: the image handler callbacks are constant functions of their inputs:
any two createDocument calls agree on deltas and returned content, and any
two updateDocument calls agree on deltas and returned content, whatever the
titles, descriptions and existing document contents. -/
theorem image_handler_outputs_carry_no_input_information
    (t₁ t₂ d₁ d₂ c₁ c₂ : String) :
    imageOnCreateDocument t₁ = imageOnCreateDocument t₂ ∧
    imageOnUpdateDocument c₁ d₁ = imageOnUpdateDocument c₂ d₂ :=
  ⟨rfl, rfl⟩

/-- C9: every delta either image-handler callback writes has empty content;
the explanatory error message appears only in the returned document content
and in no streamed delta payload. -/
theorem image_handler_deltas_have_empty_content
    (title documentContent description : String) :
    ((imageOnCreateDocument title).deltas.all (fun d => d.content == "")) = true ∧
    ((imageOnUpdateDocument documentContent description).deltas.all
        (fun d => d.content == "")) = true ∧
    (imageOnCreateDocument title).content = imageErrorMsg ∧
    (imageOnUpdateDocument documentContent description).content = imageErrorMsg ∧
    ((imageOnCreateDocument title).deltas.all
        (fun d => d.content != imageErrorMsg)) = true ∧
    ((imageOnUpdateDocument documentContent description).deltas.all
        (fun d => d.content != imageErrorMsg)) = true :=
  ⟨rfl, rfl, rfl, rfl, rfl, rfl⟩

/-- C10: myProvider exposes exactly the four selectors chat-model,
chat-model-reasoning, title-model and artifact-model, in both the
test-environment configuration and the production configuration, and the
choice between the two configurations is a function of the isTestEnvironment
flag alone. -/
theorem myProvider_same_four_selectors (isTestEnvironment : Bool) :
    (myProvider isTestEnvironment).languageModels.map Prod.fst
        = ["chat-model", "chat-model-reasoning", "title-model", "artifact-model"] ∧
    (myProvider isTestEnvironment
        = if isTestEnvironment then testEnvironmentProvider else productionProvider) := by
  cases isTestEnvironment with
  | false => exact ⟨rfl, rfl⟩
  | true => exact ⟨rfl, rfl⟩
